import Mathlib

/-!
Verification development for the gallery-dl DeviantArt extractor
(src/gallery_dl/extractor/deviantartV2.py and src/gallery_dl/Models/Deviantart.py).

The Python code is shallowly embedded: dictionaries become structures with
Option-valued fields (none models both a missing key and a falsy value where
only truthiness matters; comments flag the distinction when it is relevant),
exceptions become Option-valued results (none = the Python call raises), and
generators become functions returning the list of yielded emissions.
-/

/-! ### Shared small helpers -/

/-- Character-list version of a substring test: does `pat` occur at the head. -/
def charsHasPre : List Char → List Char → Bool
  | [], _ => true
  | _ :: _, [] => false
  | p :: ps, c :: cs => p = c && charsHasPre ps cs

/-- Does `pat` occur anywhere inside `l` (Python `pat in s`). -/
def charsHasSub (pat : List Char) : List Char → Bool
  | [] => charsHasPre pat []
  | c :: cs => charsHasPre pat (c :: cs) || charsHasSub pat cs

/-- Python substring test `pat in s`. -/
def strContains (s pat : String) : Bool :=
  charsHasSub pat.toList s.toList

/-- Fuel-driven character-list replacement; with fuel at least the length of
the subject list this is Python `str.replace` (replace every non-overlapping
occurrence, left to right).  Fuel keeps the recursion structural so that the
kernel can evaluate it. -/
def charsReplaceFuel (pat rep : List Char) : Nat → List Char → List Char
  | _, [] => []
  | 0, l => l
  | Nat.succ f, c :: cs =>
    if charsHasPre pat (c :: cs) && !pat.isEmpty then
      rep ++ charsReplaceFuel pat rep f ((c :: cs).drop pat.length)
    else c :: charsReplaceFuel pat rep f cs

/-- Python `s.replace(pat, rep)`. -/
def strReplace (s pat rep : String) : String :=
  String.mk (charsReplaceFuel pat.toList rep.toList s.toList.length s.toList)

/-- Modelled from the spec: `text.escape` (the `text` utility module is not in
src/); all user-supplied text content must be HTML-escaped before insertion. -/
def htmlEscape (s : String) : String :=
  strReplace (strReplace (strReplace s "&" "&amp;") "<" "&lt;") ">" "&gt;"

/-- Modelled from the spec: `text.ext_from_url` (the `text` utility module is
not in src/); the extension is derived from the trailing path segment of the
URL, after stripping the query string. -/
def ext_from_url (url : String) : String :=
  let path := (url.splitOn "?").headD ""
  let fname := ((path.splitOn "/").getLastD "")
  match fname.splitOn "." with
  | [] => ""
  | [_] => ""
  | parts => (parts.getLastD "").toLower

/-- Modelled from the spec: `text.parse_int` (the `text` utility module is not
in src/); parse a decimal string, with 0 as the default on failure. -/
def parse_int (s : String) : Nat :=
  (s.toNat?).getD 0

/-! ### Paginator (`DeviantartEclipseAPI._pagination`, deviantartV2.py 1042-1072) -/

/-- One JSON response of the listing endpoint, as read by `_pagination`:
`results = data.get(key)` (none = key absent), `hasMore = data.get("hasMore")`
truthiness, and the two optional continuation signals. -/
structure PageResponse (α : Type) where
  results : Option (List α)
  hasMore : Bool
  nextCursor : Option String
  nextOffset : Option Int
deriving DecidableEq, Repr

/-- The mutable request parameters of one pagination run: `params["offset"]`
and `params["cursor"]` (none models both a missing key and an explicit None). -/
structure PagParams where
  offset : Option Int
  cursor : Option String
deriving DecidableEq, Repr

/-- The state-advance logic of one `_pagination` loop iteration, after the
results have been yielded: lines 1060-1072.  `none` means the generator
returns; `some p2` means the loop continues with parameters `p2`.
`nres` is `len(results)`. -/
def pagAdvance (p : PagParams) (r : PageResponse α) (nres : Nat) : Option PagParams :=
  if !r.hasMore then none
  else match r.nextCursor with
    | some c => some { offset := none, cursor := some c }
    | none => match r.nextOffset with
      | some o => some { offset := some o, cursor := none }
      | none => match p.offset with
        | none => none
        | some o => some { offset := some (o + (nres : Int)), cursor := p.cursor }

/-- Whether a page triggers the partial-results warning test of line 1052:
`len(results) < limit and data.get("hasMore")` (the `warn` flag is handled by
the runner). -/
def pageQualifiesWarn (limit : Nat) (r : PageResponse α) : Bool :=
  (match r.results with
   | some rs => decide (rs.length < limit)
   | none => false) && r.hasMore

/-- Observable trace of one `_pagination` run over a fixed finite sequence of
server responses (`pages`): the yielded items, the indices at which the
partial-results warning was logged, the number of responses consumed, and
whether the generator exited through one of its `return` statements
(`returned = false` means the provided response sequence ran out while the
loop would have kept requesting). -/
structure PagTrace (α : Type) where
  items : List α
  warns : List Nat
  processed : Nat
  returned : Bool
deriving DecidableEq, Repr

/-- The `_pagination` loop (deviantartV2.py 1046-1072) run against a fixed
list of server responses consumed in request order.  `warn` is the one-shot
warning flag initialised to True at line 1044. -/
def pagRunList (limit : Nat) : List (PageResponse α) → PagParams → Bool → PagTrace α
  | [], _, _ => { items := [], warns := [], processed := 0, returned := false }
  | r :: rs, p, warn =>
    match r.results with
    | none => { items := [], warns := [], processed := 1, returned := true }
    | some results =>
      let fire := decide (results.length < limit) && warn && r.hasMore
      let warnsHere : List Nat := if fire then [0] else []
      match pagAdvance p r results.length with
      | none =>
        { items := results, warns := warnsHere, processed := 1, returned := true }
      | some p2 =>
        let rest := pagRunList limit rs p2 (warn && !fire)
        { items := results ++ rest.items,
          warns := warnsHere ++ rest.warns.map (· + 1),
          processed := 1 + rest.processed,
          returned := rest.returned }

/-- Entry point: `_pagination(endpoint, params, key)` with
`limit = params.get("limit", 24)` and the warning flag set to True. -/
def pagination (limit : Nat) (pages : List (PageResponse α)) (p : PagParams) : PagTrace α :=
  pagRunList limit pages p true

/-- First index satisfying a predicate (used to state where the one-shot
warning fires). -/
def firstIdxWhere (q : α → Bool) : List α → Option Nat
  | [] => none
  | a :: l => if q a then some 0 else (firstIdxWhere q l).map (· + 1)

/-! ### Paginator lemmas -/

/-- Helper: advancing from a page that carries an explicit continuation signal
(next cursor or next offset) and claims more results never stops. -/
lemma pagAdvance_isSome_of_signal {α : Type} (p : PagParams) (r : PageResponse α) (n : Nat)
    (hmore : r.hasMore = true) (hsig : r.nextCursor.isSome ∨ r.nextOffset.isSome) :
    (pagAdvance p r n).isSome := by
  unfold pagAdvance
  rw [hmore]
  cases hc : r.nextCursor with
  | some c => simp
  | none =>
    cases ho : r.nextOffset with
    | some o => simp
    | none =>
      rcases hsig with h | h
      · rw [hc] at h; simp at h
      · rw [ho] at h; simp at h

/-- Helper: one-step unfolding of the pagination loop at a page whose results
are present and whose advance step continues. -/
lemma pagRunList_cons_some {α : Type} (limit : Nat) (r : PageResponse α)
    (rs : List (PageResponse α)) (p p2 : PagParams) (warn : Bool) (results : List α)
    (hr : r.results = some results) (hadv : pagAdvance p r results.length = some p2) :
    pagRunList limit (r :: rs) p warn =
      { items := results ++ (pagRunList limit rs p2
            (warn && !(decide (results.length < limit) && warn && r.hasMore))).items,
        warns := (if decide (results.length < limit) && warn && r.hasMore then [0] else []) ++
          (pagRunList limit rs p2
            (warn && !(decide (results.length < limit) && warn && r.hasMore))).warns.map (· + 1),
        processed := 1 + (pagRunList limit rs p2
            (warn && !(decide (results.length < limit) && warn && r.hasMore))).processed,
        returned := (pagRunList limit rs p2
            (warn && !(decide (results.length < limit) && warn && r.hasMore))).returned } := by
  conv_lhs => rw [pagRunList]
  simp only [hr, hadv]

/-- Helper: a full pagination run over a response list in which every
non-final page has results, claims more, and carries an explicit continuation
signal, and whose final page has results and claims no more, consumes the
whole list, exits through a return statement and yields the concatenation of
all result lists in order. -/
lemma pagRunList_complete {α : Type} (limit : Nat) :
    ∀ (pages : List (PageResponse α)) (p : PagParams) (w : Bool),
    pages ≠ [] →
    (∀ r ∈ pages.dropLast,
        r.results.isSome ∧ r.hasMore = true ∧ (r.nextCursor.isSome ∨ r.nextOffset.isSome)) →
    (∀ r, pages.getLast? = some r → r.results.isSome ∧ r.hasMore = false) →
    (pagRunList limit pages p w).returned = true ∧
    (pagRunList limit pages p w).items = (pages.filterMap PageResponse.results).flatten ∧
    (pagRunList limit pages p w).processed = pages.length
  | [], _, _, hne, _, _ => absurd rfl hne
  | [r], p, w, _, _, hlast => by
      obtain ⟨hres, hmore⟩ := hlast r (by simp)
      obtain ⟨rr, hrr⟩ := Option.isSome_iff_exists.mp hres
      simp [pagRunList, pagAdvance, hrr, hmore]
  | r :: r2 :: rs, p, w, _, hmid, hlast => by
      obtain ⟨hres, hmore, hsig⟩ := hmid r (by
        rw [List.dropLast_cons₂]; exact List.mem_cons_self _ _)
      obtain ⟨rr, hrr⟩ := Option.isSome_iff_exists.mp hres
      have hmid2 : ∀ x ∈ (r2 :: rs).dropLast,
          x.results.isSome ∧ x.hasMore = true ∧
            (x.nextCursor.isSome ∨ x.nextOffset.isSome) := by
        intro x hx
        exact hmid x (by rw [List.dropLast_cons₂]; exact List.mem_cons_of_mem _ hx)
      have hlast2 : ∀ x, (r2 :: rs).getLast? = some x →
          x.results.isSome ∧ x.hasMore = false := by
        intro x hx
        exact hlast x (by rw [List.getLast?_cons_cons]; exact hx)
      have hadv := pagAdvance_isSome_of_signal p r rr.length hmore hsig
      obtain ⟨p2, hp2⟩ := Option.isSome_iff_exists.mp hadv
      have hih := pagRunList_complete limit (r2 :: rs) p2
        (w && !(decide (rr.length < limit) && w && r.hasMore)) (by simp) hmid2 hlast2
      rw [pagRunList_cons_some limit r (r2 :: rs) p p2 w rr hrr hp2]
      refine ⟨hih.1, ?_, ?_⟩
      · simp only [hih.2.1]
        simp [hrr, List.filterMap_cons]
      · simp only [hih.2.2]
        simp [Nat.add_comm]

/-- C1: For every finite server-side result set, the pagination generator
terminates and yields exactly the concatenation of the results lists of all
pages, in server order, with no duplicates; each loop iteration either
returns or strictly advances the offset/cursor state.
This is the AMENDED form: the original claim fails because the fallback
branch `offset += len(results)` does not strictly advance when the page is
empty (see the counterexample); the amendment requires every non-final page
to carry an explicit next-cursor or next-offset continuation signal, and the
final page to claim no further results. -/
theorem c1_pagination_complete {α : Type} (limit : Nat) (pages : List (PageResponse α))
    (p : PagParams)
    (hne : pages ≠ [])
    (hmid : ∀ r ∈ pages.dropLast,
        r.results.isSome ∧ r.hasMore = true ∧ (r.nextCursor.isSome ∨ r.nextOffset.isSome))
    (hlast : ∀ r, pages.getLast? = some r → r.results.isSome ∧ r.hasMore = false) :
    (pagination limit pages p).returned = true ∧
    (pagination limit pages p).items = (pages.filterMap PageResponse.results).flatten ∧
    (pagination limit pages p).processed = pages.length ∧
    ((pages.filterMap PageResponse.results).flatten.Nodup →
      (pagination limit pages p).items.Nodup) := by
  obtain ⟨h1, h2, h3⟩ := pagRunList_complete limit pages p true hne hmid hlast
  exact ⟨h1, h2, h3, fun hnd => h2 ▸ hnd⟩

/-- Witness for C1: a two-page offset-signalled result set is consumed
completely and yields the items of both pages in order. -/
theorem c1_pagination_complete_witness :
    (pagination 24 [⟨some [1, 2], true, none, some 2⟩, ⟨some [3], false, none, none⟩]
      ⟨some 0, none⟩ : PagTrace Nat).returned = true ∧
    (pagination 24 [⟨some [1, 2], true, none, some 2⟩, ⟨some [3], false, none, none⟩]
      ⟨some 0, none⟩ : PagTrace Nat).items =
      ([⟨some [1, 2], true, none, some 2⟩,
        ⟨some [3], false, none, none⟩].filterMap
          (PageResponse.results (α := Nat))).flatten ∧
    (pagination 24 [⟨some [1, 2], true, none, some 2⟩, ⟨some [3], false, none, none⟩]
      ⟨some 0, none⟩ : PagTrace Nat).processed = 2 ∧
    (([⟨some [1, 2], true, none, some 2⟩,
        ⟨some [3], false, none, none⟩].filterMap
          (PageResponse.results (α := Nat))).flatten.Nodup →
      (pagination 24 [⟨some [1, 2], true, none, some 2⟩, ⟨some [3], false, none, none⟩]
        ⟨some 0, none⟩ : PagTrace Nat).items.Nodup) :=
  c1_pagination_complete 24 _ _ (by decide) (by decide) (by decide)

/-- Counterexample for C1: a loop iteration that sees a page with an empty
results list, a claim of more results and no explicit continuation signal
neither returns nor advances the offset/cursor state: the parameters after
the iteration are exactly the parameters before it (`offset += 0`), so the
generator re-requests the same page forever. -/
theorem c1_counterexample :
    pagAdvance ⟨some 0, none⟩
      (⟨some [], true, none, none⟩ : PageResponse Nat) (List.length ([] : List Nat)) =
      some ⟨some 0, none⟩ := by decide

/-- C7 (amended): The pagination state keeps offset and cursor mutually
exclusive (at most one non-null in the request parameters), and a response
carrying a next-cursor token makes the NEXT request use cursor continuation
with the offset cleared.  This is the AMENDED form: the original claim also
asserted that after any next-cursor token no later request ever uses
offset-based continuation, which is false — a later response carrying a
next-offset (and no next-cursor) switches the run back to offset mode (see
the counterexample). -/
theorem c7_cursor_offset_exclusive {α : Type} (p p2 : PagParams) (r : PageResponse α)
    (n : Nat)
    (hexcl : ¬(p.offset.isSome ∧ p.cursor.isSome))
    (hadv : pagAdvance p r n = some p2) :
    ¬(p2.offset.isSome ∧ p2.cursor.isSome) ∧
    (∀ c, r.nextCursor = some c → p2.cursor = some c ∧ p2.offset = none) := by
  unfold pagAdvance at hadv
  by_cases hm : r.hasMore
  · rw [hm] at hadv
    simp only [Bool.not_true, Bool.false_eq_true, if_false] at hadv
    cases hc : r.nextCursor with
    | some c =>
      rw [hc] at hadv
      cases hadv
      constructor
      · simp
      · intro c2 hc2
        cases hc2
        simp
    | none =>
      rw [hc] at hadv
      cases ho : r.nextOffset with
      | some o =>
        rw [ho] at hadv
        cases hadv
        constructor
        · simp
        · intro c2 hc2; simp at hc2
      | none =>
        rw [ho] at hadv
        cases hoff : p.offset with
        | none => rw [hoff] at hadv; cases hadv
        | some o =>
          rw [hoff] at hadv
          cases hadv
          constructor
          · intro hcon
            exact hexcl ⟨by rw [hoff]; rfl, hcon.2⟩
          · intro c2 hc2; simp at hc2
  · rw [Bool.not_eq_true] at hm
    rw [hm] at hadv
    simp at hadv

/-- Witness for C7: a concrete advance step from offset mode through a
next-cursor response lands in cursor mode with the offset cleared, keeping
the exclusivity invariant. -/
theorem c7_cursor_offset_exclusive_witness :
    ¬((PagParams.mk none (some "tok")).offset.isSome ∧
      (PagParams.mk none (some "tok")).cursor.isSome) ∧
    (∀ c, (⟨some [1], true, some "tok", none⟩ : PageResponse Nat).nextCursor = some c →
      (PagParams.mk none (some "tok")).cursor = some c ∧
      (PagParams.mk none (some "tok")).offset = none) :=
  c7_cursor_offset_exclusive ⟨some 0, none⟩ ⟨none, some "tok"⟩
    (⟨some [1], true, some "tok", none⟩ : PageResponse Nat) 1
    (by decide) (by decide)

/-- Counterexample for C7: after a pagination run has switched to cursor mode
(offset null, cursor set), a response that claims more results and carries a
next-offset but no next-cursor switches the run BACK to offset-based
continuation, contradicting the claim that cursor mode persists for all
subsequent requests. -/
theorem c7_counterexample :
    pagAdvance ⟨none, some "c1"⟩
      (⟨some [7], true, none, some 5⟩ : PageResponse Nat) 1 =
      some ⟨some 5, none⟩ ∧
    (some (5 : Int)).isSome = true := by decide

/-- Helper: once the one-shot flag has been cleared, the pagination loop
never logs the partial-results warning again. -/
lemma pagRunList_warns_false {α : Type} (limit : Nat) :
    ∀ (pages : List (PageResponse α)) (p : PagParams),
    (pagRunList limit pages p false).warns = []
  | [], _ => by simp [pagRunList]
  | r :: rs, p => by
    cases hr : r.results with
    | none => simp [pagRunList, hr]
    | some results =>
      cases hadv : pagAdvance p r results.length with
      | none => simp [pagRunList, hr, hadv]
      | some p2 =>
        rw [pagRunList_cons_some limit r rs p p2 false results hr hadv]
        simp [pagRunList_warns_false limit rs p2]

/-- Helper: the warning indices of a pagination run are exactly the first
index among the processed pages that satisfies the warning test, when the
one-shot flag is still set, and nothing otherwise. -/
lemma pagRunList_warns {α : Type} (limit : Nat) :
    ∀ (pages : List (PageResponse α)) (p : PagParams) (w : Bool),
    (pagRunList limit pages p w).warns =
      if w then
        (firstIdxWhere (pageQualifiesWarn limit)
          (pages.take (pagRunList limit pages p w).processed)).toList
      else []
  | [], _, w => by simp [pagRunList, firstIdxWhere]
  | r :: rs, p, w => by
    cases hr : r.results with
    | none =>
      simp [pagRunList, hr, pageQualifiesWarn, firstIdxWhere]
    | some results =>
      cases hadv : pagAdvance p r results.length with
      | none =>
        simp only [pagRunList, hr, hadv]
        by_cases hw : w <;>
          by_cases hl : results.length < limit <;>
            by_cases hm2 : r.hasMore = true <;>
              simp [hw, hl, hm2, pageQualifiesWarn, hr, firstIdxWhere]
      | some p2 =>
        rw [pagRunList_cons_some limit r rs p p2 w results hr hadv]
        by_cases hw : w = true
        · subst hw
          simp only [Bool.and_true, Bool.true_and, if_true]
          cases hq : (decide (results.length < limit) && r.hasMore) with
          | true =>
            simp only [Bool.not_true, if_true]
            rw [pagRunList_warns_false limit rs p2]
            rw [Nat.add_comm 1 ((pagRunList limit rs p2 false).processed)]
            simp only [List.take_succ_cons, List.map_nil, List.append_nil]
            simp [firstIdxWhere, pageQualifiesWarn, hr, hq]
          | false =>
            simp only [Bool.not_false, if_false]
            have hih : (pagRunList limit rs p2 true).warns =
                (firstIdxWhere (pageQualifiesWarn limit)
                  (rs.take (pagRunList limit rs p2 true).processed)).toList := by
              simpa using pagRunList_warns limit rs p2 true
            rw [hih, Nat.add_comm 1 ((pagRunList limit rs p2 true).processed)]
            simp only [List.take_succ_cons, firstIdxWhere]
            have hqfalse : pageQualifiesWarn limit r = false := by
              simp only [pageQualifiesWarn, hr]
              exact hq
            rw [hqfalse]
            simp only [Bool.false_eq_true, if_false, List.nil_append]
            cases firstIdxWhere (pageQualifiesWarn limit)
              (List.take (pagRunList limit rs p2 true).processed rs) <;> simp
        · have hw2 : w = false := by simpa using hw
          subst hw2
          simp [pagRunList_warns_false limit rs p2]

/-- C9: Within one pagination run, the partial-results warning is emitted on
the first processed page whose result count is strictly smaller than the
page-size limit while the server simultaneously claims more results exist,
and it is never emitted a second time, regardless of how many later pages
also satisfy that condition. -/
theorem c9_warning_once {α : Type} (limit : Nat) (pages : List (PageResponse α))
    (p : PagParams) :
    (pagination limit pages p).warns.length ≤ 1 ∧
    (pagination limit pages p).warns =
      (firstIdxWhere (pageQualifiesWarn limit)
        (pages.take (pagination limit pages p).processed)).toList := by
  have h : (pagination limit pages p).warns =
      (firstIdxWhere (pageQualifiesWarn limit)
        (pages.take (pagination limit pages p).processed)).toList := by
    simpa [pagination] using pagRunList_warns limit pages p true
  refine ⟨?_, h⟩
  rw [h]
  cases firstIdxWhere (pageQualifiesWarn limit)
    (pages.take (pagination limit pages p).processed) <;> simp

/-! ### MediaCandidate (`DeviationMedia`, Models/Deviantart.py 23-48) -/

/-- One entry of a media `types` list, as read by `DeviationMedia.src`
(keys `t`, `c`) and by `DeviantartExtractor._eclipse_media` and
`Deviation._validate_extended` (keys `h`, `w`, `f`); Option models both a
missing key (`.get`) and a JSON null. -/
structure DVariant where
  t : Option String
  c : Option String
  h : Option Nat
  w : Option Nat
  f : Option Nat
deriving DecidableEq, Repr

/-- The pydantic `DeviationMedia` model (Models/Deviantart.py 23-33),
restricted to the fields its `src` property reads. -/
structure DeviationMedia where
  uri : String
  token : Option (List String)
  prettyName : Option String
  types : Option (List DVariant)
deriving DecidableEq, Repr

/-- The `DeviationMedia.src` computed property (Models/Deviantart.py 35-48).
`none` models a raised exception: StopIteration from
`next(view.get("c") for view in self.types if view.get("t") == "fullview")`
when no variant is tagged fullview, and TypeError from
`view.replace("<prettyName>", self.prettyName)` when `prettyName` is null.
The `if self.token and self.types` test is Python truthiness, so a null or
empty token list and a null or empty types list both select the else branch. -/
def DeviationMedia.src (m : DeviationMedia) : Option String :=
  match m.token, m.types with
  | some (tok0 :: _), some (ty0 :: tyRest) =>
    let token := "?token=" ++ tok0
    match ((ty0 :: tyRest).filter (fun v => decide (v.t = some "fullview"))).head? with
    | none => none
    | some v =>
      match v.c with
      | some c =>
        if c = "" then some (m.uri ++ token)
        else match m.prettyName with
          | none => none
          | some pn => some (m.uri ++ strReplace c "<prettyName>" pn ++ token)
      | none => some (m.uri ++ token)
  | _, _ => some m.uri

/-- C2 (amended): the resolved source URL of a media candidate.  When the
token list is non-empty, the variant list is non-empty, and the first variant
tagged "fullview" carries a non-empty URL template and the candidate has a
pretty name, the source is base URI + template with "<prettyName>" replaced
by the pretty name + "?token=" + the FIRST token.  When a token is present
and a fullview variant exists but its template is absent or empty, the source
is base URI + "?token=" + first token.  When a token is present and the
variant list is non-empty but NO variant is tagged "fullview", resolution
raises StopIteration (it does not fall back to base URI + token, contrary to
the original claim).  When the token list or the variant list is null or
empty, the source is the base URI unchanged, without any token query. -/
theorem c2_media_source :
    (∀ (m : DeviationMedia) (tok0 : String) (toks : List String)
        (ty0 v : DVariant) (tyRest : List DVariant) (tmpl pn : String),
      m.token = some (tok0 :: toks) →
      m.types = some (ty0 :: tyRest) →
      ((ty0 :: tyRest).filter (fun v => decide (v.t = some "fullview"))).head? = some v →
      v.c = some tmpl → tmpl ≠ "" → m.prettyName = some pn →
      m.src = some (m.uri ++ strReplace tmpl "<prettyName>" pn ++ ("?token=" ++ tok0))) ∧
    (∀ (m : DeviationMedia) (tok0 : String) (toks : List String)
        (ty0 v : DVariant) (tyRest : List DVariant),
      m.token = some (tok0 :: toks) →
      m.types = some (ty0 :: tyRest) →
      ((ty0 :: tyRest).filter (fun v => decide (v.t = some "fullview"))).head? = some v →
      (v.c = none ∨ v.c = some "") →
      m.src = some (m.uri ++ ("?token=" ++ tok0))) ∧
    (∀ (m : DeviationMedia) (tok0 : String) (toks : List String)
        (ty0 : DVariant) (tyRest : List DVariant),
      m.token = some (tok0 :: toks) →
      m.types = some (ty0 :: tyRest) →
      ((ty0 :: tyRest).filter (fun v => decide (v.t = some "fullview"))) = [] →
      m.src = none) ∧
    (∀ m : DeviationMedia,
      (m.token = none ∨ m.token = some [] ∨ m.types = none ∨ m.types = some []) →
      m.src = some m.uri) := by
  refine ⟨?_, ?_, ?_, ?_⟩
  · intro m tok0 toks ty0 v tyRest tmpl pn htok hty hhead hc hne hpn
    rw [DeviationMedia.src, htok, hty]
    simp only [hhead, hc, hpn, if_neg hne]
  · intro m tok0 toks ty0 v tyRest htok hty hhead hc
    rw [DeviationMedia.src, htok, hty]
    rcases hc with hc | hc
    · simp only [hhead, hc]
    · simp [hhead, hc]
  · intro m tok0 toks ty0 tyRest htok hty hfilt
    rw [DeviationMedia.src, htok, hty]
    simp only [hfilt, List.head?_nil]
  · intro m hm
    rcases hm with h | h | h | h
    · rw [DeviationMedia.src, h]
    · rw [DeviationMedia.src, h]
    · rw [DeviationMedia.src, h]
      cases htk : m.token with
      | none => rfl
      | some l => cases l <;> rfl
    · rw [DeviationMedia.src, h]
      cases htk : m.token with
      | none => rfl
      | some l => cases l <;> rfl

/-- Witness for C2: the concrete example from the specification,
token=["t1"], types=[(t=fullview, c="/v1/<prettyName>")], prettyName="x",
uri="https://cdn/img", resolves to "https://cdn/img/v1/x?token=t1"; and a
candidate with a token but a null variant list resolves to the bare base
URI. -/
theorem c2_media_source_witness :
    DeviationMedia.src
      ⟨"https://cdn/img", some ["t1"], some "x",
        some [⟨some "fullview", some "/v1/<prettyName>", none, none, none⟩]⟩ =
      some "https://cdn/img/v1/x?token=t1" ∧
    DeviationMedia.src ⟨"https://cdn/img", some ["t1"], some "x", none⟩ =
      some "https://cdn/img" := by
  constructor
  · have h := c2_media_source.1
      ⟨"https://cdn/img", some ["t1"], some "x",
        some [⟨some "fullview", some "/v1/<prettyName>", none, none, none⟩]⟩
      "t1" [] ⟨some "fullview", some "/v1/<prettyName>", none, none, none⟩
      ⟨some "fullview", some "/v1/<prettyName>", none, none, none⟩ []
      "/v1/<prettyName>" "x" rfl rfl (by decide) rfl (by decide) rfl
    rw [h]
    decide
  · exact c2_media_source.2.2.2 ⟨"https://cdn/img", some ["t1"], some "x", none⟩
      (Or.inr (Or.inr (Or.inl rfl)))

/-- Counterexample for C2: with a token present and a non-empty variant list
that contains no "fullview" variant, the code raises StopIteration (modelled
as none) instead of resolving to base URI + "?token=" + token as the claim
states; and with a token present but a null variant list, the code returns
the bare base URI without appending the token query. -/
theorem c2_counterexample :
    DeviationMedia.src
      ⟨"https://cdn/img", some ["t1"], some "x",
        some [⟨some "other", some "/v1/<prettyName>", none, none, none⟩]⟩ = none ∧
    DeviationMedia.src ⟨"https://cdn/img", some ["t1"], some "x", none⟩ ≠
      some "https://cdn/img?token=t1" := by decide

/-! ### MarkupRenderer: text marks
(`DeviantartExtractor._tiptap_process_text`, deviantartV2.py 565-603) -/

/-- Attributes of a link mark, as read at lines 572-580; Option models a
missing key. -/
structure MarkAttrs where
  href : Option String
  target : Option String
  rel : Option String
deriving DecidableEq, Repr

/-- One inline mark.  A mark dictionary normally holds the key "type" and
optionally "attrs"; `attrs = none` models a mark whose dictionary has only
the "type" key, which is also what `len(mark) <= 1` tests at line 595. -/
structure Mark where
  type : String
  attrs : Option MarkAttrs
deriving DecidableEq, Repr

/-- The open/close tag pair a mark contributes, lines 570-598.  `none` for a
bare textStyle mark (pass) and for unsupported mark types (warning only,
nothing appended).  For links: href is escaped via `text.escape`, target is
appended only when the key is present (unescaped), rel falls back to the
default relation string when absent or falsy. -/
def markTags (m : Mark) : Option (String × String) :=
  if m.type = "link" then
    let a := m.attrs.getD { href := none, target := none, rel := none }
    some ("<a href=\"" ++ htmlEscape (a.href.getD "") ++
      (match a.target with
       | some t => "\" target=\"" ++ t
       | none => "") ++
      "\" rel=\"" ++
      (match a.rel with
       | some r => if r = "" then "noopener noreferrer nofollow ugc" else r
       | none => "noopener noreferrer nofollow ugc") ++
      "\">", "</a>")
  else if m.type = "bold" then some ("<strong>", "</strong>")
  else if m.type = "italic" then some ("<em>", "</em>")
  else if m.type = "underline" then some ("<u>", "</u>")
  else if m.type = "strike" then some ("<s>", "</s>")
  else none

/-- Opening tag contributed by a mark, if any. -/
def markOpenTag (m : Mark) : Option String :=
  (markTags m).map Prod.fst

/-- Closing tag contributed by a mark, if any. -/
def markCloseTag (m : Mark) : Option String :=
  (markTags m).map Prod.snd

/-- `DeviantartExtractor._tiptap_process_text` (deviantartV2.py 565-603):
`html` is the shared output buffer the method appends to; opening tags are
appended in mark order while the matching closing tags are collected in
`close`, which is reversed before being appended after the escaped text.
`marks = none` and `marks = some []` both fail the `if marks:` truthiness
test and emit only the escaped text body. -/
def tiptap_process_text (html : List String) (marks : Option (List Mark))
    (txt : String) : List String :=
  match marks with
  | some (m0 :: mrest) =>
    let step : List String × List String → Mark → List String × List String :=
      fun acc m =>
        match markTags m with
        | some oc => (acc.1 ++ [oc.1], acc.2 ++ [oc.2])
        | none => acc
    let hc := (m0 :: mrest).foldl step (html, [])
    hc.1 ++ [htmlEscape txt] ++ hc.2.reverse
  | _ => html ++ [htmlEscape txt]

/-- Helper: the mark fold appends exactly the opening tags in mark order to
the buffer and collects the closing tags in mark order. -/
lemma tiptap_text_foldl (ms : List Mark) :
    ∀ (h c : List String),
    ms.foldl (fun acc m =>
        match markTags m with
        | some oc => (acc.1 ++ [oc.1], acc.2 ++ [oc.2])
        | none => acc) (h, c) =
      (h ++ ms.filterMap markOpenTag, c ++ ms.filterMap markCloseTag) := by
  induction ms with
  | nil => intro h c; simp
  | cons m ms ih =>
    intro h c
    simp only [List.foldl_cons, List.filterMap_cons]
    cases hm : markTags m with
    | none => simp [ih, markOpenTag, markCloseTag, hm]
    | some oc => simp [ih h, markOpenTag, markCloseTag, hm, ih (h ++ [oc.1]) (c ++ [oc.2])]

/-- C3: For every text node with a non-empty ordered mark list, the rendered
output appends to the buffer one opening tag per supported mark in list
order, then the HTML-escaped text body, then the corresponding closing tags
in exactly the reverse of the opening order (stack discipline); in
particular for marks [A, B] the output is openA openB text closeB closeA. -/
theorem c3_mark_stack (html : List String) (ms : List Mark) (txt : String)
    (hne : ms ≠ []) :
    tiptap_process_text html (some ms) txt =
      html ++ ms.filterMap markOpenTag ++ [htmlEscape txt] ++
        (ms.filterMap markCloseTag).reverse := by
  cases ms with
  | nil => exact absurd rfl hne
  | cons m0 mrest =>
    rw [tiptap_process_text]
    rw [tiptap_text_foldl (m0 :: mrest) html []]
    simp

/-- Witness for C3: a text node with marks [bold, italic] renders as
open-bold, open-italic, escaped text, close-italic, close-bold. -/
theorem c3_mark_stack_witness :
    tiptap_process_text [] (some [⟨"bold", none⟩, ⟨"italic", none⟩]) "x<y" =
      [] ++ [⟨"bold", none⟩, ⟨"italic", none⟩].filterMap markOpenTag ++
        [htmlEscape "x<y"] ++
        ([⟨"bold", none⟩, ⟨"italic", none⟩].filterMap markCloseTag).reverse ∧
    [] ++ [⟨"bold", none⟩, ⟨"italic", none⟩].filterMap markOpenTag ++
        [htmlEscape "x<y"] ++
        ([⟨"bold", none⟩, ⟨"italic", none⟩].filterMap markCloseTag).reverse =
      ["<strong>", "<em>", "x&lt;y", "</em>", "</strong>"] :=
  ⟨c3_mark_stack [] [⟨"bold", none⟩, ⟨"italic", none⟩] "x<y" (by decide), by decide⟩

/-! ### MarkupRenderer: content tree
(`DeviantartExtractor._tiptap_process_content` and helpers,
deviantartV2.py 435-670) -/

/-- Python `s.lower()`, character by character (kernel-evaluable). -/
def strLower (s : String) : String :=
  String.mk (s.toList.map Char.toLower)

/-- The media dictionary read by `_eclipse_media` (deviantartV2.py 865-883):
`token = media.get("token") or ()` makes an absent or falsy token list the
empty list. -/
structure EclMedia where
  baseUri : String
  token : List String
  prettyName : Option String
  types : List DVariant
deriving DecidableEq, Repr

/-- The `formats` dictionary comprehension of lines 868-871:
`{fmt["t"]: fmt for fmt in media["types"]}` keeps the LAST variant carrying a
given tag, so lookup scans the reversed list. -/
def formatsOf (types : List DVariant) (tag : String) : Option DVariant :=
  types.reverse.find? (fun v => decide (v.t = some tag))

/-- `DeviantartExtractor._eclipse_media` (deviantartV2.py 865-883), the URL
component of its result.  `none` models a raised exception: KeyError from
`formats[format]` when the tag is absent, TypeError from the template
replace when `prettyName` is null.  With a single token the format template
is applied when present; the appended token is `tokens[-1]`, the LAST one. -/
def eclipse_media (m : EclMedia) (format : String) : Option String :=
  match m.token with
  | [] => some m.baseUri
  | tok0 :: toks =>
    if (tok0 :: toks).length ≤ 1 then
      match formatsOf m.types format with
      | none => none
      | some f =>
        match f.c with
        | some c =>
          match m.prettyName with
          | none => none
          | some pn =>
            some (m.baseUri ++ strReplace c "<prettyName>" pn ++ "?token=" ++
              (tok0 :: toks).getLastD "")
        | none => some (m.baseUri ++ "?token=" ++ (tok0 :: toks).getLastD "")
    else some (m.baseUri ++ "?token=" ++ (tok0 :: toks).getLastD "")

/-- `DeviantartExtractor._tiptap_process_indentation` (deviantartV2.py
611-615): indent size is `(attrs.get("indentation") or 0) * 24` pixels,
applied as text-indent for the "line" indent kind and margin-inline-start
otherwise. -/
def tiptap_process_indentation (indentType : Option String)
    (indentation : Option Nat) : String :=
  (if indentType = some "line" then "text-indent" else "margin-inline-start") ++
    ":" ++ toString ((indentation.getD 0) * 24) ++ "px"

/-- One node of a tiptap rich-text document, one constructor per `type` tag
handled by `_tiptap_process_content` (deviantartV2.py 447-563).  Attribute
dictionaries are flattened into Option-valued fields; the four list-like
types that share one code branch (keyed on `type[1]`) get one constructor
each. `daDeviation` carries `attrs.deviation.url`, `.title`, its media
dictionary (none = absent or empty) and `textContent.excerpt` when present. -/
inductive TNode where
  | paragraph (textAlign : Option String) (indentType : Option String)
      (indentation : Option Nat) (children : List TNode)
  | text (marks : Option (List Mark)) (body : String)
  | heading (level : Option Nat) (textAlign : Option String)
      (indentType : Option String) (indentation : Option Nat)
      (children : List TNode)
  | listItem (children : List TNode)
  | bulletList (children : List TNode)
  | orderedList (children : List TNode)
  | blockquote (children : List TNode)
  | anchorNode (id : Option String)
  | hardBreak
  | horizontalRule
  | daDeviation (url : String) (title : String) (media : Option EclMedia)
      (excerpt : Option String)
  | daMention (user : String)
  | daGif (width : Option Nat) (height : Option Nat)
      (alignment : Option String) (url : Option String)
  | daVideo (src : Option String)
  | unknown (type : String)
deriving Repr

/-- The literature-card markup block of `_tiptap_process_deviation`
(deviantartV2.py 652-664), a single constant chunk in the source. -/
def LIT_CARD_HEAD : String :=
  "<section class=\"Q91qI aG7Yi\" style=\"width:350px;height:313px\">" ++
  "<div class=\"_16ECM _1xMkk\" aria-hidden=\"true\">" ++
  "<svg height=\"100%\" viewBox=\"0 0 15 12\" preserveAspectRatio=\"xMidYMin slice\" " ++
  "fill-rule=\"evenodd\">" ++
  "<linearGradient x1=\"87.8481761%\" y1=\"16.3690766%\" " ++
  "x2=\"45.4107524%\" y2=\"71.4898596%\" id=\"app-root-3\">" ++
  "<stop stop-color=\"#00FF62\" offset=\"0%\"></stop>" ++
  "<stop stop-color=\"#3197EF\" stop-opacity=\"0\" offset=\"100%\"></stop>" ++
  "</linearGradient>" ++
  "<text class=\"_2uqbc\" fill=\"url(#app-root-3)\" text-anchor=\"end\" x=\"15\" y=\"11\">J" ++
  "</text></svg></div><div class=\"_1xz9u\">Literature</div><h3 class=\"_2WvKD\">"

/-- `DeviantartExtractor._tiptap_process_deviation` (deviantartV2.py
617-670).  `none` models a raised exception (KeyError on a missing fullview
format or missing dimensions; Python computes the height with float
division, modelled here with natural division, a value no claim depends
on). -/
def tiptap_process_deviation (html : List String) (url title : String)
    (media : Option EclMedia) (excerpt : Option String) : Option (List String) :=
  let html := html ++ ["<div class=\"jjNX2\">",
    "<figure class=\"Qf-HY\" data-da-type=\"da-deviation\" data-deviation=\"\" " ++
      "data-width=\"\" data-link=\"\" data-alignment=\"center\">"]
  match media with
  | some m =>
    match eclipse_media m "preview" with
    | none => none
    | some u =>
      match formatsOf m.types "fullview" with
      | none => none
      | some full =>
        match full.h, full.w with
        | some fh, some fw =>
          some (html ++
            ["<a href=\"", htmlEscape url,
             "\" class=\"_3ouD5\" style=\"margin:0 auto;display:flex;" ++
               "align-items:center;justify-content:center;" ++
               "overflow:hidden;width:780px;height:",
             toString (780 * fh / fw), "px\">",
             "<img src=\"", htmlEscape u, "\" alt=\"", htmlEscape title,
             "\" style=\"width:100%;max-width:100%;display:block\"/>",
             "</a>", "</figure></div>"])
        | _, _ => none
  | none =>
    match excerpt with
    | some ex =>
      some (html ++
        ["<div class=\"_32Hs4\" style=\"width:350px\">",
         "<a href=\"", htmlEscape url, "\" class=\"_3ouD5\">",
         LIT_CARD_HEAD, htmlEscape title, "</h3><div class=\"_2CPLm\">",
         htmlEscape ex, "</div></section></a></div>", "</figure></div>"])
    | none => some (html ++ ["</figure></div>"])

mutual
/-- `DeviantartExtractor._tiptap_process_content` (deviantartV2.py 447-563).
`html` is the shared output buffer; `none` models an exception raised while
rendering (only possible inside the da-deviation branch).  Unsupported types
log a warning and append nothing. -/
def tiptap_process_content (html : List String) : TNode → Option (List String)
  | TNode.paragraph ta it ind children =>
    match children with
    | [] => some (html ++ ["<p class=\"empty-p\"><br/></p>"])
    | c0 :: crest =>
      let html := html ++ ["<p style=\""] ++
        (match ta with
         | some a => ["text-align:", a, ";"]
         | none => []) ++
        [tiptap_process_indentation it ind, "\">"]
      match tiptap_process_children html (c0 :: crest) with
      | none => none
      | some h2 => some (h2 ++ ["</p>"])
  | TNode.text marks body => some (tiptap_process_text html marks body)
  | TNode.heading lvl ta it ind children =>
    let level := match lvl with
      | some (Nat.succ n) => toString (Nat.succ n)
      | _ => "3"
    let talign := match ta with
      | some a => if a = "" then "left" else a
      | none => "left"
    let html := html ++ ["<h", level, " style=\"text-align:", talign, "\">",
      "<span style=\"", tiptap_process_indentation it ind, "\">"]
    match tiptap_process_children html children with
    | none => none
    | some h2 => some (h2 ++ ["</span></h", level, ">"])
  | TNode.listItem children =>
    match tiptap_process_children (html ++ ["<li>"]) children with
    | none => none
    | some h2 => some (h2 ++ ["</li>"])
  | TNode.bulletList children =>
    match tiptap_process_children (html ++ ["<ul>"]) children with
    | none => none
    | some h2 => some (h2 ++ ["</ul>"])
  | TNode.orderedList children =>
    match tiptap_process_children (html ++ ["<ol>"]) children with
    | none => none
    | some h2 => some (h2 ++ ["</ol>"])
  | TNode.blockquote children =>
    match tiptap_process_children (html ++ ["<blockquote>"]) children with
    | none => none
    | some h2 => some (h2 ++ ["</blockquote>"])
  | TNode.anchorNode id =>
    some (html ++ ["<a id=\"", id.getD "", "\" data-testid=\"anchor\"></a>"])
  | TNode.hardBreak => some (html ++ ["<br/><br/>"])
  | TNode.horizontalRule => some (html ++ ["<hr/>"])
  | TNode.daDeviation url title media excerpt =>
    tiptap_process_deviation html url title media excerpt
  | TNode.daMention user =>
    some (html ++ ["<a href=\"https://www.deviantart.com/", strLower user,
      "\" data-da-type=\"da-mention\" data-user=\"\">@<!-- -->", user, "</a>"])
  | TNode.daGif w h align url =>
    let width := match w with
      | some (Nat.succ n) => toString (Nat.succ n)
      | _ => ""
    let height := match h with
      | some (Nat.succ n) => toString (Nat.succ n)
      | _ => ""
    let u := htmlEscape (match url with
      | some s => s
      | none => "")
    some (html ++ ["<div data-da-type=\"da-gif\" data-width=\"", width,
      "\" data-height=\"", height, "\" data-alignment=\"",
      (match align with
       | some a => a
       | none => ""),
      "\" data-url=\"", u,
      "\" class=\"t61qu\"><video role=\"img\" autoPlay=\"\" muted=\"\" " ++
        "loop=\"\" style=\"pointer-events:none\" " ++
        "controlsList=\"nofullscreen\" playsInline=\"\" " ++
        "aria-label=\"gif\" data-da-type=\"da-gif\" width=\"",
      width, "\" height=\"", height, "\" src=\"", u,
      "\" class=\"_1Fkk6\"></video></div>"])
  | TNode.daVideo src =>
    let s := htmlEscape (src.getD "")
    some (html ++ ["<div data-testid=\"video\" data-da-type=\"da-video\" data-src=\"",
      s,
      "\" class=\"_1Uxvs\"><div data-canfs=\"yes\" data-testid=\"v" ++
        "ideo-inner\" class=\"main-video\" style=\"width:780px;hei" ++
        "ght:438px\"><div style=\"width:780px;height:438px\">" ++
        "<video src=\"",
      s,
      "\" style=\"width:100%;height:100%;\" preload=\"auto\" cont" ++
        "rols=\"\"></video></div></div></div>"])
  | TNode.unknown _ => some html

/-- The child-iteration loops of `_tiptap_process_content` and
`_tiptap_process_children` (deviantartV2.py 605-609). -/
def tiptap_process_children (html : List String) : List TNode → Option (List String)
  | [] => some html
  | c :: cs =>
    match tiptap_process_content html c with
    | none => none
    | some h2 => tiptap_process_children h2 cs
end

/-- `DeviantartExtractor._tiptap_to_html` (deviantartV2.py 435-445): wrap the
document blocks in the editor-viewer div and join the buffer. -/
def tiptap_to_html (document : List TNode) : Option String :=
  match tiptap_process_children
      ["<div data-editor-viewer=\"1\" class=\"_83r8m _2CKTq _3NjDa mDnFl\">"]
      document with
  | none => none
  | some h => some (String.join (h ++ ["</div>"]))

/-- C8 (amended): the markup renderer HTML-escapes text-node bodies before
insertion (and link hrefs, deviation URLs/titles/excerpts, gif and video
URLs are escaped where they are inserted), BUT several server-supplied
structural and attribute values are inserted without escaping: mention
usernames, anchor ids, and the target attribute of link marks.  The original
claim that every server-supplied structural or attribute value (URLs, ids,
usernames) is escaped is therefore false (see the counterexample). -/
theorem c8_escaping :
    (∀ (html : List String) (l : List Mark) (txt : String),
      tiptap_process_text html (some l) txt =
        html ++ l.filterMap markOpenTag ++ [htmlEscape txt] ++
          (l.filterMap markCloseTag).reverse) ∧
    (∀ (html : List String) (user : String),
      tiptap_process_content html (TNode.daMention user) =
        some (html ++ ["<a href=\"https://www.deviantart.com/", strLower user,
          "\" data-da-type=\"da-mention\" data-user=\"\">@<!-- -->", user,
          "</a>"])) ∧
    (∀ (html : List String) (id : Option String),
      tiptap_process_content html (TNode.anchorNode id) =
        some (html ++ ["<a id=\"", id.getD "",
          "\" data-testid=\"anchor\"></a>"])) ∧
    (∀ (h t : String),
      markTags ⟨"link", some ⟨some h, some t, none⟩⟩ =
        some ("<a href=\"" ++ htmlEscape h ++ ("\" target=\"" ++ t) ++
          "\" rel=\"" ++ "noopener noreferrer nofollow ugc" ++ "\">", "</a>")) := by
  refine ⟨?_, ?_, ?_, ?_⟩
  · intro html l txt
    cases l with
    | nil => simp [tiptap_process_text]
    | cons m0 mrest =>
      rw [tiptap_process_text]
      rw [tiptap_text_foldl (m0 :: mrest) html []]
      simp
  · intro html user
    simp [tiptap_process_content]
  · intro html id
    simp [tiptap_process_content]
  · intro h t
    simp [markTags]

/-- Counterexample for C8: rendering a mention of the (server-supplied)
username "<x>" inserts the raw string "<x>" into the output twice, although
its HTML-escaped form is "&lt;x&gt;", so not every server-supplied value is
escaped before insertion. -/
theorem c8_counterexample :
    tiptap_process_content [] (TNode.daMention "<x>") =
      some ["<a href=\"https://www.deviantart.com/", "<x>",
        "\" data-da-type=\"da-mention\" data-user=\"\">@<!-- -->", "<x>",
        "</a>"] ∧
    htmlEscape "<x>" = "&lt;x&gt;" := by
  constructor
  · have hlow : strLower "<x>" = "<x>" := by decide
    simp [tiptap_process_content, hlow]
  · decide

/-! ### CommentTreeFlattener
(`DeviantartExtractor._extract_comments`, deviantartV2.py 784-804) -/

/-- One comment as read by the flattener: its id, its parent id (null for a
thread root) and its reply count (`c["replies"]`, truthiness tested). -/
structure EComment where
  commentid : Nat
  parentid : Option Nat
  replies : Nat
deriving DecidableEq, Repr

/-- The `while comment_ids:` loop of `_extract_comments`.  The work-list is
kept in Python list order: `comment_ids.pop()` pops the LAST element and
`comment_ids.extend(...)` appends at the end.  The Python set difference
`replies - parents` is modelled as a deduplicated filtered list (Python sets
carry no specified order; no claim depends on the push order).  `fuel` bounds
the number of iterations so the function is total; `none` means the fuel ran
out before the work-list emptied.  The accumulator mirrors
`results.extend(comments)`; `pages` additionally records each fetched page
for specification purposes. -/
def extract_comments_loop (fetch : Option Nat → List EComment) :
    Nat → List (Option Nat) → List EComment → List (List EComment) →
    Option (List EComment × List (List EComment))
  | _, [], acc, pages => some (acc, pages)
  | 0, _ :: _, _, _ => none
  | Nat.succ f, i :: is, acc, pages =>
    let anchor := (i :: is).getLastD none
    let rest := (i :: is).dropLast
    let comments := fetch anchor
    let parents := comments.map (fun c => c.parentid)
    let repliers := (comments.filter (fun c => c.replies != 0)).map
      (fun c => c.commentid)
    let fresh := (repliers.filter (fun r => !(parents.contains (some r)))).dedup
    extract_comments_loop fetch f (rest ++ fresh.map Option.some)
      (acc ++ comments) (pages ++ [comments])

/-- `_extract_comments(target_id)`: the work-list is seeded with the single
root sentinel None (line 786). -/
def extract_comments (fetch : Option Nat → List EComment) (fuel : Nat) :
    Option (List EComment × List (List EComment)) :=
  extract_comments_loop fetch fuel [none] [] []

/-- Helper: whenever the flattener loop completes, its accumulated result is
the concatenation of the fetched pages appended to the starting
accumulator. -/
lemma extract_comments_loop_flatten (fetch : Option Nat → List EComment) :
    ∀ (fuel : Nat) (ids : List (Option Nat)) (acc : List EComment)
      (pages : List (List EComment)) (res : List EComment)
      (resPages : List (List EComment)),
    extract_comments_loop fetch fuel ids acc pages = some (res, resPages) →
    acc = pages.flatten →
    res = resPages.flatten
  | fuel, [], acc, pages, res, resPages => by
    intro hrun hacc
    rw [extract_comments_loop] at hrun
    cases hrun
    exact hacc
  | 0, i :: is, acc, pages, res, resPages => by
    intro hrun hacc
    rw [extract_comments_loop] at hrun
    cases hrun
  | Nat.succ f, i :: is, acc, pages, res, resPages => by
    intro hrun hacc
    rw [extract_comments_loop] at hrun
    refine extract_comments_loop_flatten fetch f _ _ _ _ _ hrun ?_
    simp [hacc]

/-- C5: The comment-tree flattener maintains a work-list seeded with a single
root sentinel, fetches one page per popped id, appends the page to the
accumulator, pushes the deduplicated set of replier ids minus parent ids,
and terminates when the work-list is empty; when every fetched page consists
of distinct, previously unseen comments (the pages jointly contain no
duplicate), the flattened output is exactly the concatenation of all fetched
pages and contains every fetched comment exactly once. -/
theorem c5_comment_flattening (fetch : Option Nat → List EComment) (fuel : Nat)
    (res : List EComment) (pages : List (List EComment))
    (hrun : extract_comments fetch fuel = some (res, pages))
    (hnd : pages.flatten.Nodup) :
    res = pages.flatten ∧ ∀ c ∈ res, res.count c = 1 := by
  have hres : res = pages.flatten :=
    extract_comments_loop_flatten fetch fuel [none] [] [] res pages hrun (by simp)
  refine ⟨hres, ?_⟩
  intro c hc
  have hndres : res.Nodup := hres ▸ hnd
  exact List.count_eq_one_of_mem hndres hc

/-- Concrete three-level reply tree used as the C5 witness: the root page
holds comment 1 (a thread root with one reply) and comment 2 (a child of 1
with one hidden reply); expanding 2 yields comment 3. -/
def commentFetchEx : Option Nat → List EComment
  | none => [⟨1, none, 1⟩, ⟨2, some 1, 1⟩]
  | some 2 => [⟨3, some 2, 0⟩]
  | some _ => []

/-- Witness for C5: on the synthetic three-level tree the run terminates
with two fetched pages, the output is their concatenation, and every node
appears exactly once. -/
theorem c5_comment_flattening_witness :
    ([⟨1, none, 1⟩, ⟨2, some 1, 1⟩, ⟨3, some 2, 0⟩] : List EComment) =
      ([[⟨1, none, 1⟩, ⟨2, some 1, 1⟩], [⟨3, some 2, 0⟩]] :
        List (List EComment)).flatten ∧
    ∀ c ∈ ([⟨1, none, 1⟩, ⟨2, some 1, 1⟩, ⟨3, some 2, 0⟩] : List EComment),
      ([⟨1, none, 1⟩, ⟨2, some 1, 1⟩, ⟨3, some 2, 0⟩] : List EComment).count c = 1 :=
  c5_comment_flattening commentFetchEx 2
    [⟨1, none, 1⟩, ⟨2, some 1, 1⟩, ⟨3, some 2, 0⟩]
    [[⟨1, none, 1⟩, ⟨2, some 1, 1⟩], [⟨3, some 2, 0⟩]]
    (by decide) (by decide)

/-! ### PremiumAccessCoordinator
(`DeviantartExtractor._fetch_premium`, deviantartV2.py 815-858) -/

/-- The premium cache `self._premium_cache`, a dictionary keyed by deviation
id whose values are the resolved deviation (some) or the null sentinel
(none).  Modelled as an association list where insertion shadows older
entries, matching dictionary assignment. -/
def cacheInsert {D : Type} (c : List (Nat × Option D)) (k : Nat) (v : Option D) :
    List (Nat × Option D) :=
  (k, v) :: c.filter (fun e => e.fst != k)

/-- Dictionary lookup: `some v` when the key is present with value `v`
(where `v = none` is the stored null sentinel), `none` when absent. -/
def cacheLookup {D : Type} (c : List (Nat × Option D)) (k : Nat) :
    Option (Option D) :=
  (c.find? (fun e => e.fst == k)).map Prod.snd

/-- Inputs of one `_fetch_premium` call that come from outside the function:
the configured refresh token, what the detailed fetch of the gated deviation
reports (`"premium_folder_data" not in dev`), the gate descriptor fields
read from the original deviation, the auto-watch configuration and the
outcome of the watch call. -/
structure PremiumCtx where
  hasRefreshToken : Bool
  detailHasPremiumFolderData : Bool
  folderType : String
  folderHasAccess : Bool
  autoWatch : Bool
  watchSucceeds : Bool
deriving DecidableEq, Repr

/-- The access decision of `_fetch_premium` (deviantartV2.py 831-845):
access is granted when the detailed response no longer carries
premium_folder_data or its has_access flag is set; a denied "watchers" gate
with auto-watch enabled is upgraded to granted when the watch call
succeeds. -/
def premium_has_access (ctx : PremiumCtx) : Bool :=
  let ha := !ctx.detailHasPremiumFolderData || ctx.folderHasAccess
  if !ha && decide (ctx.folderType = "watchers") && ctx.autoWatch then
    if ctx.watchSucceeds then true else ha
  else ha

/-- `DeviantartExtractor._fetch_premium` (deviantartV2.py 815-858).  Returns
the Python return value and the cache after the call.  The first component
mirrors the three returns: the cached entry on a hit; None when no refresh
token is configured (the coordinator then disables itself, not modelled
beyond the early return); otherwise `cache.get(deviationid)` after the bulk
gallery fetch populated one entry per sibling (the resolved sibling when
access was granted, the null sentinel when it was denied). -/
def fetch_premium {D : Type} (ctx : PremiumCtx) (cache : List (Nat × Option D))
    (reqId : Nat) (gallery : List (Nat × D)) : Option D × List (Nat × Option D) :=
  match cacheLookup cache reqId with
  | some v => (v, cache)
  | none =>
    if !ctx.hasRefreshToken then (none, cache)
    else
      let ha := premium_has_access ctx
      let cache2 := gallery.foldl
        (fun c kv => cacheInsert c kv.fst (if ha then some kv.snd else none)) cache
      ((cacheLookup cache2 reqId).getD none, cache2)

/-- Helper: looking up the key just inserted yields the inserted value. -/
lemma cacheLookup_insert_self {D : Type} (c : List (Nat × Option D)) (k : Nat)
    (v : Option D) : cacheLookup (cacheInsert c k v) k = some v := by
  simp [cacheInsert, cacheLookup, List.find?_cons]

/-- Helper: inserting under a different key does not change a lookup. -/
lemma cacheLookup_insert_ne {D : Type} (c : List (Nat × Option D)) (k k2 : Nat)
    (v : Option D) (hne : k ≠ k2) :
    cacheLookup (cacheInsert c k2 v) k = cacheLookup c k := by
  have hbeq : (k2 == k) = false := by
    simp only [beq_eq_false_iff_ne, ne_eq]
    exact Ne.symm hne
  simp only [cacheInsert, cacheLookup, List.find?_cons, hbeq]
  congr 1
  induction c with
  | nil => rfl
  | cons e es ih =>
    rw [List.filter_cons]
    by_cases hek2 : e.fst = k2
    · have h1 : (e.fst != k2) = false := by simp [hek2]
      have h2 : (e.fst == k) = false := by
        simp only [beq_eq_false_iff_ne, ne_eq, hek2]
        exact Ne.symm hne
      simp only [h1, Bool.false_eq_true, if_false]
      rw [List.find?_cons]
      simp only [h2]
      exact ih
    · have h1 : (e.fst != k2) = true := by simp [hek2]
      simp only [h1, if_true]
      rw [List.find?_cons, List.find?_cons]
      cases hekk : (e.fst == k) with
      | true => rfl
      | false => exact ih

/-- Helper: a fold of inserts over pairs whose keys avoid `k` leaves the
lookup of `k` unchanged. -/
lemma cacheLookup_foldl_not_mem {D : Type} (ha : Bool) :
    ∀ (g : List (Nat × D)) (c : List (Nat × Option D)) (k : Nat),
    k ∉ g.map Prod.fst →
    cacheLookup (g.foldl
      (fun c kv => cacheInsert c kv.fst (if ha then some kv.snd else none)) c) k =
      cacheLookup c k
  | [], c, k => by intro h; rfl
  | kv :: g, c, k => by
    intro h
    simp only [List.map_cons, List.mem_cons] at h
    push_neg at h
    rw [List.foldl_cons]
    rw [cacheLookup_foldl_not_mem ha g _ k h.2]
    exact cacheLookup_insert_ne c k kv.fst _ h.1

/-- Helper: after folding the insertions for a gallery with pairwise
distinct ids, every gallery pair is present with the value the fold stored
for it. -/
lemma cacheLookup_foldl_mem {D : Type} (ha : Bool) :
    ∀ (g : List (Nat × D)) (c : List (Nat × Option D)),
    (g.map Prod.fst).Nodup →
    ∀ kv ∈ g,
    cacheLookup (g.foldl
      (fun c kv => cacheInsert c kv.fst (if ha then some kv.snd else none)) c)
      kv.fst = some (if ha then some kv.snd else none)
  | [], c => by intro _ kv hkv; cases hkv
  | kv0 :: g, c => by
    intro hnd kv hkv
    simp only [List.map_cons, List.nodup_cons] at hnd
    rw [List.foldl_cons]
    rcases List.mem_cons.mp hkv with heq | hmem
    · subst heq
      rw [cacheLookup_foldl_not_mem ha g _ kv.fst hnd.1]
      exact cacheLookup_insert_self c kv.fst _
    · exact cacheLookup_foldl_mem ha g _ hnd.2 kv hmem

/-- C4: After resolving one access-gated item through the full premium path
(no cache hit for the requested id, refresh token configured), the cache
contains an entry for every sibling id returned by the bulk gallery fetch —
the resolved sibling when access was granted and the null sentinel for every
sibling when access was denied — and the call returns exactly
`cache.get(requested id)` over the populated cache. -/
theorem c4_premium_siblings {D : Type} (ctx : PremiumCtx)
    (cache : List (Nat × Option D)) (reqId : Nat) (gallery : List (Nat × D))
    (hmiss : cacheLookup cache reqId = none)
    (htok : ctx.hasRefreshToken = true)
    (hnd : (gallery.map Prod.fst).Nodup) :
    (∀ kv ∈ gallery,
      cacheLookup (fetch_premium ctx cache reqId gallery).snd kv.fst =
        some (if premium_has_access ctx then some kv.snd else none)) ∧
    (fetch_premium ctx cache reqId gallery).fst =
      (cacheLookup (fetch_premium ctx cache reqId gallery).snd reqId).getD none := by
  have hfp : fetch_premium ctx cache reqId gallery =
      ((cacheLookup (gallery.foldl
          (fun c kv => cacheInsert c kv.fst
            (if premium_has_access ctx then some kv.snd else none)) cache)
        reqId).getD none,
       gallery.foldl
          (fun c kv => cacheInsert c kv.fst
            (if premium_has_access ctx then some kv.snd else none)) cache) := by
    rw [fetch_premium, hmiss, htok]
    simp
  rw [hfp]
  constructor
  · intro kv hkv
    exact cacheLookup_foldl_mem (premium_has_access ctx) gallery cache hnd kv hkv
  · rfl

/-- Witness for C4: a denied gate (no access, not a watchers gate) over a
two-sibling gallery stores the null sentinel for both siblings and the call
returns the sentinel entry of the requested id. -/
theorem c4_premium_siblings_witness :
    (∀ kv ∈ [(10, 100), (11, 110)],
      cacheLookup (fetch_premium ⟨true, true, "paid", false, false, false⟩
          ([] : List (Nat × Option Nat)) 10 [(10, 100), (11, 110)]).snd kv.fst =
        some (if premium_has_access ⟨true, true, "paid", false, false, false⟩
          then some kv.snd else none)) ∧
    (fetch_premium ⟨true, true, "paid", false, false, false⟩
        ([] : List (Nat × Option Nat)) 10 [(10, 100), (11, 110)]).fst =
      (cacheLookup (fetch_premium ⟨true, true, "paid", false, false, false⟩
          ([] : List (Nat × Option Nat)) 10 [(10, 100), (11, 110)]).snd 10).getD
        none :=
  c4_premium_siblings ⟨true, true, "paid", false, false, false⟩ [] 10
    [(10, 100), (11, 110)] (by decide) (by decide) (by decide)

/-! ### ContentResolver
(`DeviantartExtractor.commit` and `_eclipse_deviation`,
deviantartV2.py 120-202 and 298-308) -/

/-- A media/download/flash/preview dictionary in its role as the `target`
argument of `commit`: the keys commit reads and writes. -/
structure Target where
  src : String
  filename : Option String
  extension : Option String
deriving DecidableEq, Repr

/-- The deviation fields `commit` reads and writes: the filename stem built
by `prepare`, and the extension / is_original enrichment fields (none =
key absent before commit ran). -/
structure DevMeta where
  filename : String
  extension : Option String
  isOriginal : Option Bool
deriving DecidableEq, Repr

/-- `name = target.get("filename") or url` (deviantartV2.py 301): the
target filename when present and truthy, else the source URL. -/
def commitName (target : Target) : String :=
  match target.filename with
  | some f => if f = "" then target.src else f
  | none => target.src

/-- `DeviantartExtractor.commit` (deviantartV2.py 298-308).  Returns the
enriched deviation fields, the copied-and-updated target, and the emitted
URL.  (The `deviation["target"] = target` back-reference is the second
component.) -/
def commit (dev : DevMeta) (target : Target) : DevMeta × Target × String :=
  let url := target.src
  let name := commitName target
  let target2 : Target := { target with filename := some dev.filename,
                                         extension := some (ext_from_url name) }
  let dev2 : DevMeta := { dev with
    extension := some (ext_from_url name),
    isOriginal := some (dev.isOriginal.getD (!strContains url "/v1/")) }
  (dev2, target2, url)

/-- C10: commit emits the target source URL; it sets the is_original flag to
(the URL does not contain "/v1/") exactly when no earlier stage set it and
never overwrites an existing flag (the getD form covers both cases); it
copies the item filename into the emitted media descriptor; and it sets the
extension on both the item and the descriptor from the source name (the
target filename when present and truthy, else the URL). -/
theorem c10_commit (dev : DevMeta) (target : Target) :
    (commit dev target).snd.snd = target.src ∧
    (commit dev target).fst.isOriginal =
      some (dev.isOriginal.getD (!strContains target.src "/v1/")) ∧
    (commit dev target).snd.fst.filename = some dev.filename ∧
    (commit dev target).fst.extension = some (ext_from_url (commitName target)) ∧
    (commit dev target).snd.fst.extension = (commit dev target).fst.extension :=
  ⟨rfl, rfl, rfl, rfl, rfl⟩

/-- The media dictionary as read by `_extract_media` (deviantartV2.py
699-705): base URI, token list (`media["token"][0]` raises when absent or
empty, modelled as none) and whatever filename key the dictionary carries
into the subsequent commit. -/
structure EMedia where
  baseUri : String
  token : List String
  filename : Option String
deriving DecidableEq, Repr

/-- `DeviantartExtractor._extract_media` (deviantartV2.py 699-705): sets
`media["src"] = baseUri + "?token=" + token[0]` and returns the media
dictionary, which then becomes the commit target. -/
def extract_media (m : EMedia) : Option Target :=
  match m.token with
  | tok0 :: _ =>
    some { src := m.baseUri ++ "?token=" ++ tok0, filename := m.filename,
           extension := none }
  | [] => none

/-- One entry of `deviation["videos"]` in its role as a commit target with a
quality label. -/
structure EVideo where
  src : String
  filename : Option String
  quality : String
deriving DecidableEq, Repr

/-- The sort key of line 162: `text.parse_int(x["quality"][:-1])`. -/
def video_quality (v : EVideo) : Nat :=
  parse_int (v.quality.dropRight 1)

/-- Python `max(videos, key=...)` (line 161): the first video with the
numerically largest quality label. -/
def max_video (v : EVideo) (vs : List EVideo) : EVideo :=
  vs.foldl (fun best x => if video_quality best < video_quality x then x else best) v

/-- Modelled from the spec/stdlib: the restriction of Python
`mimetypes.guess_type` (line 198, not repository code) to the extension
table the preview branch can meet. -/
def mimeTypeOf (ext : String) : Option String :=
  if ext = "jpg" then some "image/jpeg"
  else if ext = "jpeg" then some "image/jpeg"
  else if ext = "png" then some "image/png"
  else if ext = "gif" then some "image/gif"
  else if ext = "mp4" then some "video/mp4"
  else if ext = "swf" then some "application/x-shockwave-flash"
  else if ext = "htm" then some "text/html"
  else if ext = "html" then some "text/html"
  else none

/-- Python truthiness of an optional string (None and "" are falsy). -/
def pyTruthyStr : Option String → Bool
  | some s => s ≠ ""
  | none => false

/-- The extractor configuration fields `_eclipse_deviation` consults. -/
structure EclipseCfg where
  commitJournal : Bool
  extra : Bool
  previews : Bool
  previewsImages : Bool
deriving DecidableEq, Repr

/-- The deviation dictionary fields `_eclipse_deviation` reads.  Option
fields model `dict.get` (none = absent or falsy where only truthiness is
tested); `media = none` models an absent or empty media value, `videos =
some []` a present-but-empty list (falsy), `flash`/`preview` presence is
key-presence. -/
structure EDeviation where
  isDeleted : Bool
  isMultiImage : Bool
  hasExtended : Bool
  tierAccess : Option String
  pcp : Bool
  isDownloadable : Bool
  uuid : Option String
  media : Option EMedia
  hasContent : Bool
  videos : Option (List EVideo)
  flash : Option Target
  preview : Option Target
  url : String
  filename : String
deriving DecidableEq, Repr

/-- Results of the external calls `_eclipse_deviation` makes, passed as
oracles: the post-update deviation returned through `_fetch_premium` (none =
access denied, resolution aborted), the OAuth `deviation_download` result,
the `_extract_content` result together with the is_original flag that call
may set (none = the call raised, aborting the item), and the extracted
journal (none = no journal).  The HTTP fetching, URL rewriting and journal
HTML templating inside those callees are outside this resolver embedding;
no claim depends on them. -/
structure EclipseOracles where
  premium : Option EDeviation
  downloadContent : Target
  contentResult : Option (Target × Option Bool)
  journal : Option String
deriving DecidableEq, Repr

/-- One tagged emission of the resolver, mirroring `Message.Queue`,
`Message.Directory` and `Message.Url`. -/
inductive Emission where
  | queue (url : String)
  | directory
  | url (src : String)
deriving DecidableEq, Repr

/-- Output of one resolver stage: the emissions it yields, the deviation
enrichment state after it, and whether it completed without raising
(ok = false models an exception that aborts the remaining stages). -/
structure StageOut where
  emissions : List Emission
  meta : DevMeta
  ok : Bool
deriving DecidableEq, Repr

/-- The download/media/content elif-chain of `_eclipse_deviation`
(deviantartV2.py 149-158). -/
def eclipse_main_stage (d : EDeviation) (orc : EclipseOracles)
    (meta : DevMeta) : StageOut :=
  if d.isDownloadable && pyTruthyStr d.uuid then
    let meta := { meta with isOriginal := some true }
    let r := commit meta orc.downloadContent
    { emissions := [Emission.url r.snd.snd], meta := r.fst, ok := true }
  else match d.media with
  | some m =>
    match extract_media m with
    | some tgt =>
      let r := commit meta tgt
      { emissions := [Emission.url r.snd.snd], meta := r.fst, ok := true }
    | none => { emissions := [], meta := meta, ok := false }
  | none =>
    if d.hasContent then
      match orc.contentResult with
      | some (tgt, io) =>
        let meta := { meta with isOriginal :=
          match io with
          | some b => some b
          | none => meta.isOriginal }
        let r := commit meta tgt
        { emissions := [Emission.url r.snd.snd], meta := r.fst, ok := true }
      | none => { emissions := [], meta := meta, ok := false }
    else { emissions := [], meta := meta, ok := true }

/-- The video branch (deviantartV2.py 160-164): pick the variant with the
largest quality label, mark non-original, commit. -/
def eclipse_video_stage (d : EDeviation) (meta : DevMeta) : StageOut :=
  match d.videos with
  | some (v0 :: vs) =>
    let video := max_video v0 vs
    let meta := { meta with isOriginal := some false }
    let r := commit meta
      { src := video.src, filename := video.filename, extension := none }
    { emissions := [Emission.url r.snd.snd], meta := r.fst, ok := true }
  | _ => { emissions := [], meta := meta, ok := true }

/-- The flash branch (deviantartV2.py 166-168). -/
def eclipse_flash_stage (d : EDeviation) (meta : DevMeta) : StageOut :=
  match d.flash with
  | some tgt =>
    let meta := { meta with isOriginal := some true }
    let r := commit meta tgt
    { emissions := [Emission.url r.snd.snd], meta := r.fst, ok := true }
  | none => { emissions := [], meta := meta, ok := true }

/-- The journal branch (deviantartV2.py 170-176): when a journal renderer is
configured and a journal was extracted, mark original and emit the rendered
journal as a Url (the `_commit_journal_html` templating sets extension
"htm"; its HTML assembly is abstracted into the emitted payload). -/
def eclipse_journal_stage (cfg : EclipseCfg) (orc : EclipseOracles)
    (meta : DevMeta) : StageOut :=
  if cfg.commitJournal then
    match orc.journal with
    | some j =>
      let meta := { meta with isOriginal := some true, extension := some "htm" }
      { emissions := [Emission.url j], meta := meta, ok := true }
    | none => { emissions := [], meta := meta, ok := true }
  else { emissions := [], meta := meta, ok := true }

/-- The preview branch (deviantartV2.py 192-202): with previews enabled and
a preview present, emit it always in previews=all mode, otherwise only when
the current extension has a known non-image MIME type; reading
`deviation["extension"]` before any commit set it raises (ok = false). -/
def eclipse_preview_stage (cfg : EclipseCfg) (d : EDeviation)
    (meta : DevMeta) : StageOut :=
  if cfg.previews then
    match d.preview with
    | some pv =>
      if cfg.previewsImages then
        let r := commit meta pv
        { emissions := [Emission.url r.snd.snd], meta := r.fst, ok := true }
      else
        match meta.extension with
        | none => { emissions := [], meta := meta, ok := false }
        | some e =>
          match mimeTypeOf e with
          | some mt =>
            if !mt.startsWith "image/" then
              let r := commit meta pv
              { emissions := [Emission.url r.snd.snd], meta := r.fst, ok := true }
            else { emissions := [], meta := meta, ok := true }
          | none => { emissions := [], meta := meta, ok := true }
    | none => { emissions := [], meta := meta, ok := true }
  else { emissions := [], meta := meta, ok := true }

/-- The post-skip emission sequence of `_eclipse_deviation`: the Directory
signal followed by the five media stages in source order, truncated when the
main stage raises. -/
def eclipse_emit (cfg : EclipseCfg) (d : EDeviation) (orc : EclipseOracles) :
    List Emission × Bool :=
  let meta : DevMeta :=
    { filename := d.filename, extension := none, isOriginal := none }
  let s1 := eclipse_main_stage d orc meta
  if !s1.ok then (Emission.directory :: s1.emissions, false)
  else
    let s2 := eclipse_video_stage d s1.meta
    let s3 := eclipse_flash_stage d s2.meta
    let s4 := eclipse_journal_stage cfg orc s3.meta
    let s5 := eclipse_preview_stage cfg d s4.meta
    (Emission.directory :: (s1.emissions ++ s2.emissions ++ s3.emissions ++
      s4.emissions ++ s5.emissions), s5.ok)

/-- `DeviantartExtractor._eclipse_deviation` (deviantartV2.py 120-202): the
skip stages (deleted, unresolved multi-image gallery parent → queue,
tier-locked, premium gate) followed by the Directory emission and the media
stages. -/
def eclipse_deviation (cfg : EclipseCfg) (d0 : EDeviation)
    (orc : EclipseOracles) : List Emission × Bool :=
  if d0.isDeleted then ([], true)
  else if d0.isMultiImage && !d0.hasExtended then ([Emission.queue d0.url], true)
  else if d0.tierAccess = some "locked" then ([], true)
  else
    match (if d0.pcp then orc.premium else some d0) with
    | none => ([], true)
    | some d => eclipse_emit cfg d orc

/-- Helper: the main elif-chain never yields a Directory signal. -/
lemma eclipse_main_stage_no_directory (d : EDeviation) (orc : EclipseOracles)
    (meta : DevMeta) :
    Emission.directory ∉ (eclipse_main_stage d orc meta).emissions := by
  unfold eclipse_main_stage
  split
  · simp
  · split
    · split <;> simp
    · split
      · split <;> simp
      · simp

/-- Helper: the video branch never yields a Directory signal. -/
lemma eclipse_video_stage_no_directory (d : EDeviation) (meta : DevMeta) :
    Emission.directory ∉ (eclipse_video_stage d meta).emissions := by
  unfold eclipse_video_stage
  split <;> simp

/-- Helper: the flash branch never yields a Directory signal. -/
lemma eclipse_flash_stage_no_directory (d : EDeviation) (meta : DevMeta) :
    Emission.directory ∉ (eclipse_flash_stage d meta).emissions := by
  unfold eclipse_flash_stage
  split <;> simp

/-- Helper: the journal branch never yields a Directory signal. -/
lemma eclipse_journal_stage_no_directory (cfg : EclipseCfg)
    (orc : EclipseOracles) (meta : DevMeta) :
    Emission.directory ∉ (eclipse_journal_stage cfg orc meta).emissions := by
  unfold eclipse_journal_stage
  split
  · split <;> simp
  · simp

/-- Helper: the preview branch never yields a Directory signal. -/
lemma eclipse_preview_stage_no_directory (cfg : EclipseCfg) (d : EDeviation)
    (meta : DevMeta) :
    Emission.directory ∉ (eclipse_preview_stage cfg d meta).emissions := by
  unfold eclipse_preview_stage
  split
  · split
    · split
      · simp
      · split
        · simp
        · split
          · split <;> simp
          · simp
    · simp
  · simp

/-- Helper: the post-skip emission sequence is the Directory signal followed
by a directory-free tail. -/
lemma eclipse_emit_directory (cfg : EclipseCfg) (d : EDeviation)
    (orc : EclipseOracles) :
    ∃ rest, (eclipse_emit cfg d orc).fst = Emission.directory :: rest ∧
      Emission.directory ∉ rest := by
  unfold eclipse_emit
  dsimp only
  split
  · exact ⟨_, rfl, eclipse_main_stage_no_directory d orc _⟩
  · refine ⟨_, rfl, ?_⟩
    simp only [List.mem_append]
    push_neg
    exact ⟨⟨⟨⟨eclipse_main_stage_no_directory d orc _,
      eclipse_video_stage_no_directory d _⟩,
      eclipse_flash_stage_no_directory d _⟩,
      eclipse_journal_stage_no_directory cfg orc _⟩,
      eclipse_preview_stage_no_directory cfg d _⟩

/-- C6: For every content item that passes the skip stages (not deleted, not
an unresolved multi-image gallery parent, not tier-locked, and not denied by
the premium gate), the resolver emission sequence contains exactly one
Directory emission, and that Directory emission precedes every Url emission
for the item (it is the head of the sequence and occurs nowhere else). -/
theorem c6_directory_first (cfg : EclipseCfg) (d0 : EDeviation)
    (orc : EclipseOracles)
    (hdel : d0.isDeleted = false)
    (hmulti : ¬(d0.isMultiImage = true ∧ d0.hasExtended = false))
    (hlock : d0.tierAccess ≠ some "locked")
    (hprem : d0.pcp = true → orc.premium.isSome) :
    (eclipse_deviation cfg d0 orc).fst.count Emission.directory = 1 ∧
    ∃ rest, (eclipse_deviation cfg d0 orc).fst = Emission.directory :: rest ∧
      Emission.directory ∉ rest := by
  have hskip : eclipse_deviation cfg d0 orc =
      match (if d0.pcp then orc.premium else some d0) with
      | none => ([], true)
      | some d => eclipse_emit cfg d orc := by
    unfold eclipse_deviation
    rw [if_neg (by simp [hdel])]
    rw [if_neg (by
      simp only [Bool.and_eq_true, Bool.not_eq_true']
      exact fun h => hmulti h)]
    rw [if_neg hlock]
  obtain ⟨d, hd⟩ : ∃ d, (if d0.pcp then orc.premium else some d0) = some d := by
    cases hpcp : d0.pcp with
    | true =>
      obtain ⟨d, hd⟩ := Option.isSome_iff_exists.mp (hprem hpcp)
      exact ⟨d, by simp [hd]⟩
    | false => exact ⟨d0, by simp⟩
  rw [hskip, hd]
  obtain ⟨rest, hrest, hmem⟩ := eclipse_emit_directory cfg d orc
  refine ⟨?_, rest, hrest, hmem⟩
  rw [hrest, List.count_cons_self, List.count_eq_zero.mpr hmem]

/-- Witness for C6: a plain downloadable image deviation passes all skip
stages and emits exactly Directory followed by one Url. -/
theorem c6_directory_first_witness :
    (eclipse_deviation ⟨false, false, false, false⟩
      ⟨false, false, false, none, false, true, some "u", none, false, none,
        none, none, "https://www.deviantart.com/x/art/t-5", "t_by_x-d5"⟩
      ⟨none, ⟨"https://cdn/f.png", none, none⟩, none, none⟩).fst.count
        Emission.directory = 1 ∧
    ∃ rest, (eclipse_deviation ⟨false, false, false, false⟩
      ⟨false, false, false, none, false, true, some "u", none, false, none,
        none, none, "https://www.deviantart.com/x/art/t-5", "t_by_x-d5"⟩
      ⟨none, ⟨"https://cdn/f.png", none, none⟩, none, none⟩).fst =
        Emission.directory :: rest ∧ Emission.directory ∉ rest :=
  c6_directory_first ⟨false, false, false, false⟩
    ⟨false, false, false, none, false, true, some "u", none, false, none,
      none, none, "https://www.deviantart.com/x/art/t-5", "t_by_x-d5"⟩
    ⟨none, ⟨"https://cdn/f.png", none, none⟩, none, none⟩
    (by decide) (by decide) (by decide) (by decide)
